import Mathlib

/-!
Verification of the schema-migration and write-queuing engine described in
spec.md, together with the aurora_abb_powerone sensor update path and the
MQTT lock state handler that ship in this repository.

The recorder/migration implementation itself is not part of the source tree
(only its tests are), so those components are modelled from the spec; the
aurora sensor and the MQTT lock are embedded directly from
homeassistant/components/aurora_abb_powerone/sensor.py,
homeassistant/components/aurora_abb_powerone/aurora_device.py and
homeassistant/components/mqtt/lock.py.
-/

namespace Spec2Proof

/-- Checks whether the character list `sub` occurs at the head of `l`
(character-by-character comparison). -/
def listLeadsWith : List Char → List Char → Bool
  | [], _ => true
  | _ :: _, [] => false
  | a :: as, b :: bs => a == b && listLeadsWith as bs

/-- Substring test: `sub` occurs somewhere inside `s`.  Used to model
Python's `substr in text` operator. -/
def strContainsSubstr (s sub : String) : Bool :=
  (List.range (s.data.length + 1)).any (fun i => listLeadsWith sub.data (s.data.drop i))

namespace Migration

/-- Modelled from the spec: the only error class relevant to the migration
model — a configuration error (`ValueError` in the tests), raised when the
target version is invalid (missing from the 1..latest step range, in
particular when it is ≤ 0). -/
inductive MigError
  | valueError
deriving DecidableEq, Repr

/-- Modelled from the spec: observable migrator state — the persisted schema
version and the trace of `_apply_update` invocations, each recorded as the
`(newVersion, oldVersion)` pair it was called with. -/
structure MigratorState where
  persistedVersion : Nat
  appliedCalls : List (Int × Int)
deriving DecidableEq, Repr

/-- Modelled from the spec: `_apply_update(connection, engine, newVersion,
oldVersion)` applies the step with target `newVersion`.  It fails with a
configuration error if `newVersion` is outside the 1..latest step range
(in particular whenever `newVersion ≤ 0`); otherwise it invokes the step,
which we record in the call trace.  The connection and engine arguments are
irrelevant to the check and are omitted. -/
def apply_update (latest : Nat) (s : MigratorState) (newVersion oldVersion : Int) :
    Except MigError MigratorState :=
  if newVersion ≤ 0 ∨ (latest : Int) < newVersion then .error .valueError
  else .ok { s with appliedCalls := s.appliedCalls ++ [(newVersion, oldVersion)] }

/-- Modelled from the spec: the `Applying` loop of the Migrator.  For each
pending target version, in the order given, it invokes `apply_update`
(passing the session start version as `oldVersion`) and then persists the
new version; a step error aborts the whole migration. -/
def migrate_loop (latest startVersion : Nat) :
    List Nat → MigratorState → Except MigError MigratorState
  | [], s => .ok s
  | v :: vs, s =>
    match apply_update latest s (v : Int) (startVersion : Int) with
    | .error e => .error e
    | .ok s2 => migrate_loop latest startVersion vs { s2 with persistedVersion := v }

/-- Modelled from the spec: `migrate_schema` detects the current version and
applies every step from `startVersion + 1` up to `latest`, strictly in
ascending order. -/
def migrate_schema (latest startVersion : Nat) : Except MigError MigratorState :=
  migrate_loop latest startVersion
    (List.range' (startVersion + 1) (latest - startVersion))
    { persistedVersion := startVersion, appliedCalls := [] }

end Migration

namespace Backlog

/-- Modelled from the spec: the bounded FIFO write queue.  `items` is ordered
oldest first, `capacity` is `MAX_QUEUE_BACKLOG`, and `dropped` counts the
records rejected by the overflow policy. -/
structure Queue (α : Type) where
  capacity : Nat
  items : List α
  dropped : Nat
deriving Repr

/-- Modelled from the spec: `enqueue(record) -> enqueued|dropped`.  When the
queue is full the newest record (the one being offered) is rejected and the
dropped-record counter is incremented; otherwise the record is appended at
the tail.  The operation is total — it never blocks the producer. -/
def enqueue {α : Type} (q : Queue α) (r : α) : Queue α × Bool :=
  if q.capacity ≤ q.items.length then ({ q with dropped := q.dropped + 1 }, false)
  else ({ q with items := q.items ++ [r] }, true)

/-- Modelled from the spec: the Recorder Loop drains the backlog, persisting
every pending record in FIFO order and emptying the queue. -/
def drain {α : Type} (persisted : List α) (q : Queue α) : List α × Queue α :=
  (persisted ++ q.items, { q with items := [] })

end Backlog

namespace Dialect

/-- Modelled from the spec: a backend error as seen by the dialect adapter —
its own message and the message of its `__cause__` (the empty string when
the cause carries no text). -/
structure DbException where
  message : String
  causeMessage : String
deriving DecidableEq, Repr

/-- The message/cause chain of a backend error, in the order the adapter
inspects it. -/
def exceptionStrs (ex : DbException) : List String :=
  [ex.message, ex.causeMessage]

/-- Modelled from the spec: `raise_if_exception_missing_str` inspects the
error's message/cause chain for each of the given substrings; if any one is
found in a non-empty entry of the chain, the error is recoverable and the
call returns success; otherwise the original error is propagated. -/
def raise_if_exception_missing_str (ex : DbException) :
    List String → Except DbException Unit
  | [] => .error ex
  | sub :: rest =>
    if (exceptionStrs ex).any (fun s => s != "" && strContainsSubstr s sub) then
      .ok ()
    else raise_if_exception_missing_str ex rest

/-- Modelled from the spec: `createIndexIfMissing`.  The backend's attempt
to create the index either succeeds or raises `ex`; on an error the adapter
treats the dialect-specific "already exists" / "duplicate" conditions as
success (logged at info level) and propagates anything else as fatal. -/
def create_index (backendResult : Except DbException Unit) : Except DbException Unit :=
  match backendResult with
  | .ok () => .ok ()
  | .error ex => raise_if_exception_missing_str ex ["already exists", "duplicate"]

/-- Modelled from the spec: the backend's raw ADD COLUMN operation on a
table (represented by its list of column names).  Adding a column that is
already present raises a "duplicate column name" error. -/
def backend_add_column (table : List String) (col : String) :
    Except DbException (List String) :=
  if col ∈ table then .error ⟨"duplicate column name: " ++ col, ""⟩
  else .ok (table ++ [col])

/-- Modelled from the spec: `addColumnsIfMissing` (`_add_columns`).  Each
column is added through the backend; a "duplicate" error from the backend is
treated as success (the column already exists), any other error is fatal. -/
def add_columns : List String → List String → Except DbException (List String)
  | table, [] => .ok table
  | table, col :: rest =>
    match backend_add_column table col with
    | .ok t2 => add_columns t2 rest
    | .error e =>
      if strContainsSubstr e.message "duplicate" then add_columns table rest
      else .error e

/-- Splits a column spec at its first space, like Python's
`col_def.split(" ", 1)`: "event_type VARCHAR(64)" becomes
("event_type", "VARCHAR(64)"). -/
def splitFirstSpaceAux : List Char → List Char × List Char
  | [] => ([], [])
  | c :: cs =>
    if c = ' ' then ([], cs)
    else
      let p := splitFirstSpaceAux cs
      (c :: p.1, p.2)

/-- String version of `splitFirstSpaceAux`. -/
def splitFirstSpace (s : String) : String × String :=
  let p := splitFirstSpaceAux s.data
  (String.mk p.1, String.mk p.2)

/-- Modelled from the spec: `modifyColumnType` (`_modify_columns`).  Returns
the list of statements executed on the connection: none for sqlite (dynamic
typing — the operation is a no-op), and one ALTER TABLE statement built from
the dialect-specific per-column clause otherwise (postgresql rewrites the
spec as "ALTER column TYPE type", mssql prefixes "ALTER COLUMN", every other
dialect — mysql among them — prefixes "MODIFY"). -/
def modify_columns_statements (dialectName table : String)
    (colSpecs : List String) : List String :=
  if dialectName = "sqlite" then []
  else
    let clauses :=
      if dialectName = "postgresql" then
        colSpecs.map (fun cd =>
          let p := splitFirstSpace cd
          "ALTER " ++ p.1 ++ " TYPE " ++ p.2)
      else if dialectName = "mssql" then
        colSpecs.map (fun cd => "ALTER COLUMN " ++ cd)
      else
        colSpecs.map (fun cd => "MODIFY " ++ cd)
    ["ALTER TABLE " ++ table ++ " " ++ String.intercalate ", " clauses]

end Dialect

namespace Recorder

/-- Modelled from the spec: the fault injected into a migration attempt.
`corruption` is a DatabaseError whose cause is an sqlite3.DatabaseError
("database disk image is malformed"-class signal); `genericDbError` is any
other database error raised during step application. -/
inductive MigFault
  | corruption
  | genericDbError
deriving DecidableEq, Repr

/-- The identifier of the persistent migration-failure notification. -/
def migrationNotificationId : String := "database_migration_failure"

/-- Modelled from the spec: the process-wide observable state of the
recorder core — where the store lives, its persisted schema version, how
often a broken store was moved away, the migration-in-progress flag, the
failure flag, the set of active persistent notifications, and counters of
notification create/dismiss invocations. -/
structure CoreState where
  storeLocation : Nat
  storeVersion : Nat
  movedAwayCount : Nat
  migrationInProgress : Bool
  failed : Bool
  activeNotifications : List String
  createCount : Nat
  dismissCount : Nat
deriving DecidableEq, Repr

/-- The initial core state: a fresh store at schema version 0, nothing moved
away, no notifications. -/
def initialState : CoreState :=
  { storeLocation := 0, storeVersion := 0, movedAwayCount := 0,
    migrationInProgress := false, failed := false, activeNotifications := [],
    createCount := 0, dismissCount := 0 }

/-- Modelled from the spec: one recorder startup.  The worker sets the
migration-in-progress flag, runs the Migrator and then clears the flag.
On success the schema is migrated to `latest` and the failure notification
is dismissed.  On a corruption signal (DatabaseError with an
sqlite3.DatabaseError cause) the broken store is moved away, a fresh store
is created at a new location and migrated from version 0 to `latest`.  On
any other database error the store is not relocated: the migration is
marked failed and exactly one failure notification is created. -/
def start_recorder (latest : Nat) (fault : Option MigFault) (s : CoreState) : CoreState :=
  match fault with
  | none =>
    let ver :=
      match Migration.migrate_schema latest s.storeVersion with
      | .ok m => m.persistedVersion
      | .error _ => s.storeVersion
    { s with
      storeVersion := ver
      migrationInProgress := false
      failed := false
      activeNotifications :=
        s.activeNotifications.filter (fun n => n != migrationNotificationId)
      dismissCount := s.dismissCount + 1 }
  | some .corruption =>
    let ver :=
      match Migration.migrate_schema latest 0 with
      | .ok m => m.persistedVersion
      | .error _ => 0
    { s with
      storeLocation := s.storeLocation + 1
      movedAwayCount := s.movedAwayCount + 1
      storeVersion := ver
      migrationInProgress := false
      failed := false }
  | some .genericDbError =>
    { s with
      migrationInProgress := false
      failed := true
      activeNotifications :=
        if migrationNotificationId ∈ s.activeNotifications then
          s.activeNotifications
        else s.activeNotifications ++ [migrationNotificationId]
      createCount := s.createCount + 1 }

end Recorder

namespace Aurora

/-- Log levels used by the aurora sensor update path. -/
inductive LogLevel
  | debug
  | info
  | warning
deriving DecidableEq, Repr

/-- The mutable attributes of an `AuroraSensor` touched by `update`
(sensor.py) together with the `_available` field initialised by
`AuroraDevice.__init__` (aurora_device.py line 29) and never written by
`update`.  Measurements are modelled as integers — the claims under proof do
not concern the floating-point rounding applied to the raw reading. -/
structure SensorState where
  aurora_available : Bool
  attr_available : Bool
  attr_native_value : Option Int
  attr_state : Option Int
  availableprev : Bool
deriving DecidableEq, Repr

/-- The state of a freshly constructed sensor: `_available = True`
(aurora_device.py line 29), `availableprev = True` (sensor.py line 91), and
the `_attr_available` class default of `True`. -/
def initState : SensorState :=
  { aurora_available := true, attr_available := true, attr_native_value := none,
    attr_state := none, availableprev := true }

/-- The `available` property of the entity.  `AuroraDevice.available`
(aurora_device.py lines 37-40) returns `self._available`; being defined on
the class closest to `AuroraSensor` in the resolution order, it is the
property the entity exposes. -/
def available (s : SensorState) : Bool := s.aurora_available

/-- Outcome of the serial-client interaction inside `update`: either a
measurement value, or an `AuroraError` carrying the given message (raised by
`connect` or `measure`). -/
inductive ClientResult
  | ok (value : Int)
  | err (message : String)
deriving DecidableEq, Repr

/-- Result of one `AuroraSensor.update` call: the sensor state afterwards,
the `AuroraError` message propagated to the caller (if any), and the log
records emitted. -/
structure UpdateResult where
  state : SensorState
  raised : Option String
  logs : List (LogLevel × String)
deriving DecidableEq, Repr

/-- `AuroraSensor.update` (sensor.py lines 93-136).  First
`availableprev` is set from `_attr_available`; on a successful measurement
the native value is stored and `_attr_available` becomes true; on an
`AuroraError` the state/native value are cleared and `_attr_available`
becomes false, then the message is tested for "No response after": a match
is only logged at debug level, anything else is re-raised.  The `finally`
block logs availability transitions by comparing `_attr_available` with
`availableprev`. -/
def update (client : ClientResult) (s : SensorState) : UpdateResult :=
  let prev := s.attr_available
  let core :=
    match client with
    | .ok v =>
      ({ s with
          availableprev := prev
          attr_native_value := some v
          attr_available := true },
        (none : Option String), ([] : List (LogLevel × String)))
    | .err msg =>
      let s2 : SensorState :=
        { s with
          availableprev := prev
          attr_state := none
          attr_native_value := none
          attr_available := false }
      if strContainsSubstr msg "No response after" then
        (s2, none, [(LogLevel.debug, "No response from inverter (could be dark)")])
      else
        (s2, some msg, [])
  let s1 := core.1
  let logsFin :=
    if s1.attr_available != s1.availableprev then
      if s1.attr_available then [(LogLevel.info, "Communication back online")]
      else [(LogLevel.warning, "Communication lost")]
    else []
  { state := s1, raised := core.2.1, logs := core.2.2 ++ logsFin }

end Aurora

namespace MqttLock

/-- The configuration consumed by the MQTT lock state handler (lock.py):
the configured locked/unlocked state payloads and the optional value
template applied to incoming payloads. -/
structure Config where
  state_locked : String
  state_unlocked : String
  value_template : Option (String → String)

/-- The entity state touched by the handler: `_state` and a count of
`async_write_ha_state` invocations. -/
structure EntityState where
  state : Bool
  haStateWrites : Nat
deriving DecidableEq, Repr

/-- The payload after optional value-template rendering
(lock.py lines 110-113). -/
def renderedPayload (cfg : Config) (payload : String) : String :=
  match cfg.value_template with
  | some f => f payload
  | none => payload

/-- `message_received` (lock.py lines 106-119): renders the payload, sets
`_state` to true on an exact match with the locked payload, to false on an
exact match with the unlocked payload, leaves it unchanged otherwise, and
always rewrites the entity state. -/
def message_received (cfg : Config) (s : EntityState) (payload : String) : EntityState :=
  let p := renderedPayload cfg payload
  let st :=
    if p = cfg.state_locked then true
    else if p = cfg.state_unlocked then false
    else s.state
  { state := st, haStateWrites := s.haStateWrites + 1 }

/-- The `is_locked` property (lock.py lines 137-140). -/
def is_locked (s : EntityState) : Bool := s.state

end MqttLock

/-! Helper lemmas, followed by the claim theorems. -/

/-- If `sub` occurs at the head of `l`, it occurs at the head of `l ++ t`. -/
lemma listLeadsWith_append {sub l : List Char} (t : List Char)
    (h : listLeadsWith sub l = true) : listLeadsWith sub (l ++ t) = true := by
  induction sub generalizing l with
  | nil => simp [listLeadsWith]
  | cons a as ih =>
    cases l with
    | nil => simp [listLeadsWith] at h
    | cons b bs =>
      simp only [listLeadsWith, Bool.and_eq_true] at h
      simp only [List.cons_append, listLeadsWith, Bool.and_eq_true]
      exact ⟨h.1, ih h.2⟩

/-- If `sub` occurs at the head of `s`, then `s` contains `sub`. -/
lemma strContainsSubstr_of_leads {s sub : String}
    (h : listLeadsWith sub.data s.data = true) : strContainsSubstr s sub = true := by
  unfold strContainsSubstr
  rw [List.any_eq_true]
  exact ⟨0, List.mem_range.mpr (Nat.succ_pos _), by simpa using h⟩

namespace Migration

lemma migrate_loop_eq (latest startVersion : Nat) (vs : List Nat) (s : MigratorState)
    (h : ∀ v ∈ vs, 1 ≤ v ∧ v ≤ latest) :
    migrate_loop latest startVersion vs s = .ok
      { persistedVersion := vs.foldl (fun _ v => v) s.persistedVersion,
        appliedCalls := s.appliedCalls ++ vs.map (fun v => ((v : Int), (startVersion : Int))) } := by
  induction vs generalizing s with
  | nil => simp [migrate_loop]
  | cons v vs ih =>
    have hv : 1 ≤ v ∧ v ≤ latest := h v (by simp)
    have hcond : ¬((v : Int) ≤ 0 ∨ (latest : Int) < (v : Int)) := by
      push_neg
      omega
    have step : migrate_loop latest startVersion (v :: vs) s =
        migrate_loop latest startVersion vs
          { persistedVersion := v,
            appliedCalls := s.appliedCalls ++ [((v : Int), (startVersion : Int))] } := by
      rw [migrate_loop, apply_update, if_neg hcond]
    rw [step, ih _ (fun w hw => h w (by simp [hw]))]
    simp [List.append_assoc, List.foldl_cons]

lemma range'_foldl_last (n : Nat) : ∀ (s a : Nat),
    (List.range' s (n + 1)).foldl (fun _ v => v) a = s + n := by
  induction n with
  | zero => intro s a; simp [List.range']
  | succ n ih =>
    intro s a
    rw [show n + 1 + 1 = (n + 1) + 1 from rfl, List.range'_succ]
    rw [List.foldl_cons]
    rw [ih (s + 1) s]
    omega

/-- Running a full migration from version 0 applies exactly the steps
1, 2, ..., latest (each with `oldVersion = 0`) and persists `latest`. -/
lemma migrate_schema_from_zero (latest : Nat) :
    migrate_schema latest 0 = .ok
      { persistedVersion := latest,
        appliedCalls := (List.range' 1 latest).map (fun v => ((v : Int), (0 : Int))) } := by
  unfold migrate_schema
  rw [migrate_loop_eq]
  · simp only [Nat.sub_zero, Nat.zero_add, List.nil_append]
    cases latest with
    | zero => rfl
    | succ n =>
      have h1 : List.foldl (fun _ v => v) 0 (List.range' 1 (n + 1)) = n + 1 := by
        rw [range'_foldl_last n 1 0]
        omega
      rw [h1]
      rfl
  · intro v hv
    simp only [List.mem_range'_1] at hv
    omega

end Migration

/-- Claim C1: starting from schema version 0, running the Migrator succeeds,
invokes `apply_update` exactly once per step with new versions
1, 2, ..., latest in strictly ascending order (each paired with old version
0), and the persisted schema version afterwards equals the latest version.
The equality of the call trace with `List.range' 1 latest` expresses "each
step exactly once, in ascending order". -/
theorem schema_update_calls_in_order (latest : Nat) :
    ∃ final : Migration.MigratorState,
      Migration.migrate_schema latest 0 = .ok final ∧
      final.appliedCalls = (List.range' 1 latest).map (fun v => ((v : Int), (0 : Int))) ∧
      final.persistedVersion = latest :=
  ⟨_, Migration.migrate_schema_from_zero latest, rfl, rfl⟩

/-- Claim C2: `apply_update` with a target version ≤ 0 fails with a
configuration error (the ValueError of the source), for every migrator
state and old version; no advanced migration state is produced. -/
theorem apply_update_nonpositive_version_fails (latest : Nat)
    (s : Migration.MigratorState) (newVersion oldVersion : Int)
    (h : newVersion ≤ 0) :
    Migration.apply_update latest s newVersion oldVersion = .error .valueError := by
  unfold Migration.apply_update
  rw [if_pos (Or.inl h)]

/-- Witness for claim C2 at the test's concrete input `newVersion = -1`. -/
theorem apply_update_nonpositive_version_fails_witness :
    (-1 : Int) ≤ 0 ∧
      Migration.apply_update 10 ⟨0, []⟩ (-1) 0 = .error .valueError :=
  ⟨by decide, apply_update_nonpositive_version_fails 10 ⟨0, []⟩ (-1) 0 (by decide)⟩

/-- Claim C3: with capacity `MAX_QUEUE_BACKLOG = 1`, enqueueing records A
then B while the worker is blocked accepts A and rejects B (drop-newest,
with the dropped-record counter incremented) without ever blocking the
producer (`enqueue` is a total function); the drain then persists exactly
one of the two records (namely A), and a record C enqueued after the drain
is persisted normally. -/
theorem queue_exhausted_drop_newest {α : Type} (A B C : α) :
    let q0 : Backlog.Queue α := ⟨1, [], 0⟩
    let e1 := Backlog.enqueue q0 A
    let e2 := Backlog.enqueue e1.1 B
    let d1 := Backlog.drain [] e2.1
    let e3 := Backlog.enqueue d1.2 C
    let d2 := Backlog.drain d1.1 e3.1
    e1.2 = true ∧ e2.2 = false ∧ e2.1.items = [A] ∧ e2.1.dropped = 1 ∧
      d1.1 = [A] ∧ e3.2 = true ∧ d2.1 = [A, C] := by
  simp [Backlog.enqueue, Backlog.drain]

namespace Dialect

/-- The matching condition of the dialect adapter: some requested substring
occurs in a non-empty entry of the error's message/cause chain. -/
def someSubstrOccurs (ex : DbException) (substrs : List String) : Prop :=
  ∃ sub ∈ substrs, ∃ s ∈ exceptionStrs ex, s ≠ "" ∧ strContainsSubstr s sub = true

instance (ex : DbException) (substrs : List String) :
    Decidable (someSubstrOccurs ex substrs) := by
  unfold someSubstrOccurs
  infer_instance

lemma raise_if_ok_iff (ex : DbException) (substrs : List String) :
    raise_if_exception_missing_str ex substrs = .ok () ↔ someSubstrOccurs ex substrs := by
  induction substrs with
  | nil => simp [raise_if_exception_missing_str, someSubstrOccurs]
  | cons sub rest ih =>
    by_cases hc : (exceptionStrs ex).any (fun s => s != "" && strContainsSubstr s sub) = true
    · rw [raise_if_exception_missing_str, if_pos hc]
      simp only [List.any_eq_true, Bool.and_eq_true, bne_iff_ne, ne_eq] at hc
      obtain ⟨s, hs, h1, h2⟩ := hc
      exact iff_of_true rfl ⟨sub, by simp, s, hs, h1, h2⟩
    · rw [raise_if_exception_missing_str, if_neg hc, ih]
      simp only [List.any_eq_true, Bool.and_eq_true, bne_iff_ne, ne_eq, not_exists,
        not_and] at hc
      constructor
      · rintro ⟨u, hu, s, hs, h1, h2⟩
        exact ⟨u, List.mem_cons_of_mem _ hu, s, hs, h1, h2⟩
      · rintro ⟨u, hu, s, hs, h1, h2⟩
        rcases List.mem_cons.mp hu with rfl | hu2
        · exact absurd h2 (hc s hs h1)
        · exact ⟨u, hu2, s, hs, h1, h2⟩

lemma raise_if_ok_or_error (ex : DbException) (substrs : List String) :
    raise_if_exception_missing_str ex substrs = .ok () ∨
      raise_if_exception_missing_str ex substrs = .error ex := by
  induction substrs with
  | nil => exact Or.inr rfl
  | cons sub rest ih =>
    rw [raise_if_exception_missing_str]
    split
    · exact Or.inl rfl
    · exact ih

end Dialect

/-- Claim C4: the dialect adapter treats "already exists" conditions as
success.  If some requested substring occurs in a non-empty entry of the
backend error's message/cause chain, `raise_if_exception_missing_str`
returns success (and so `create_index` succeeds when the error carries one
of the "already exists"/"duplicate" markers, logging at info level in the
source); if no substring occurs — in particular when the cause message is
empty — the original error is re-raised.  `create_index` defers exactly to
the checker with the "already exists"/"duplicate" substrings. -/
theorem ddl_forgives_already_exists (ex : Dialect.DbException) (substrs : List String) :
    (Dialect.someSubstrOccurs ex substrs →
      Dialect.raise_if_exception_missing_str ex substrs = .ok ()) ∧
    (¬ Dialect.someSubstrOccurs ex substrs →
      Dialect.raise_if_exception_missing_str ex substrs = .error ex) ∧
    Dialect.create_index (.error ex) =
      Dialect.raise_if_exception_missing_str ex ["already exists", "duplicate"] := by
  refine ⟨fun h => (Dialect.raise_if_ok_iff ex substrs).mpr h, fun h => ?_, rfl⟩
  rcases Dialect.raise_if_ok_or_error ex substrs with hok | herr
  · exact absurd ((Dialect.raise_if_ok_iff ex substrs).mp hok) h
  · exact herr

/-- Witness for claim C4: a backend error whose cause carries "already
exists" makes `create_index` succeed; the same error is re-raised when the
requested substrings are absent; an error with an empty cause message and a
non-matching message is re-raised even for the "already exists"/"duplicate"
substrings. -/
theorem ddl_forgives_already_exists_witness :
    (Dialect.someSubstrOccurs ⟨"stmt", "index already exists on states"⟩
        ["already exists", "duplicate"] ∧
      Dialect.create_index (.error ⟨"stmt", "index already exists on states"⟩) = .ok ()) ∧
    (¬ Dialect.someSubstrOccurs ⟨"stmt", "index already exists on states"⟩ ["not present"] ∧
      Dialect.raise_if_exception_missing_str ⟨"stmt", "index already exists on states"⟩
        ["not present"] = .error ⟨"stmt", "index already exists on states"⟩) ∧
    (¬ Dialect.someSubstrOccurs ⟨"select row;", ""⟩ ["already exists", "duplicate"] ∧
      Dialect.raise_if_exception_missing_str ⟨"select row;", ""⟩
        ["already exists", "duplicate"] = .error ⟨"select row;", ""⟩) := by
  refine ⟨⟨by decide, ?_⟩, ⟨by decide, ?_⟩, ⟨by decide, ?_⟩⟩
  · rw [(ddl_forgives_already_exists ⟨"stmt", "index already exists on states"⟩
      ["already exists", "duplicate"]).2.2]
    exact (ddl_forgives_already_exists _ _).1 (by decide)
  · exact (ddl_forgives_already_exists _ _).2.1 (by decide)
  · exact (ddl_forgives_already_exists _ _).2.1 (by decide)

/-- The backend's duplicate-column message always carries the "duplicate"
marker the adapter looks for. -/
lemma dup_msg_contains (col : String) :
    strContainsSubstr ("duplicate column name: " ++ col) "duplicate" = true := by
  apply strContainsSubstr_of_leads
  have hd : ("duplicate column name: " ++ col).data =
      "duplicate column name: ".data ++ col.data := by
    cases col
    rfl
  rw [hd]
  exact listLeadsWith_append _ (by decide)

/-- Claim C5: `add_columns` is idempotent.  For any table holding the column
at most once (a table never holds a column twice), adding the column twice
succeeds both times — the second call is forgiven through the backend's
"duplicate column name" error — and the table ends with exactly one such
column. -/
theorem add_columns_idempotent (table : List String) (col : String)
    (h : table.count col ≤ 1) :
    ∃ t1, Dialect.add_columns table [col] = .ok t1 ∧
      Dialect.add_columns t1 [col] = .ok t1 ∧ t1.count col = 1 := by
  by_cases hc : col ∈ table
  · have hb : Dialect.backend_add_column table col =
        .error ⟨"duplicate column name: " ++ col, ""⟩ := by
      unfold Dialect.backend_add_column
      rw [if_pos hc]
    have hcall : Dialect.add_columns table [col] = .ok table := by
      simp [Dialect.add_columns, hb, dup_msg_contains col]
    have hcount : table.count col = 1 := by
      have h1 := List.count_pos_iff.mpr hc
      omega
    exact ⟨table, hcall, hcall, hcount⟩
  · have hb1 : Dialect.backend_add_column table col = .ok (table ++ [col]) := by
      unfold Dialect.backend_add_column
      rw [if_neg hc]
    have hmem : col ∈ table ++ [col] := by simp
    have hb2 : Dialect.backend_add_column (table ++ [col]) col =
        .error ⟨"duplicate column name: " ++ col, ""⟩ := by
      unfold Dialect.backend_add_column
      rw [if_pos hmem]
    refine ⟨table ++ [col], ?_, ?_, ?_⟩
    · simp [Dialect.add_columns, hb1]
    · simp [Dialect.add_columns, hb2, dup_msg_contains col]
    · rw [List.count_append]
      simp [List.count_eq_zero.mpr hc]

/-- Witness for claim C5 at the test's concrete input: table `hello` with
one column `id`, adding `context_id` twice. -/
theorem add_columns_idempotent_witness :
    (["id"] : List String).count "context_id" ≤ 1 ∧
    ∃ t1, Dialect.add_columns ["id"] ["context_id"] = .ok t1 ∧
      Dialect.add_columns t1 ["context_id"] = .ok t1 ∧ t1.count "context_id" = 1 :=
  ⟨by decide, add_columns_idempotent ["id"] "context_id" (by decide)⟩

/-- Claim C6: for the column spec "event_type VARCHAR(64)" on table
`events`, `modify_columns_statements` executes nothing for sqlite
(dynamically typed — a no-op), and for postgresql, mssql and mysql executes
an ALTER statement containing respectively
"ALTER event_type TYPE VARCHAR(64)", "ALTER COLUMN event_type VARCHAR(64)"
and "MODIFY event_type VARCHAR(64)". -/
theorem modify_columns_dialect_statements :
    Dialect.modify_columns_statements "sqlite" "events" ["event_type VARCHAR(64)"] = [] ∧
    (Dialect.modify_columns_statements "postgresql" "events"
        ["event_type VARCHAR(64)"]).any
      (fun st => strContainsSubstr st "ALTER event_type TYPE VARCHAR(64)") = true ∧
    (Dialect.modify_columns_statements "mssql" "events"
        ["event_type VARCHAR(64)"]).any
      (fun st => strContainsSubstr st "ALTER COLUMN event_type VARCHAR(64)") = true ∧
    (Dialect.modify_columns_statements "mysql" "events"
        ["event_type VARCHAR(64)"]).any
      (fun st => strContainsSubstr st "MODIFY event_type VARCHAR(64)") = true := by
  decide

/-- Claim C7: a migration-time DatabaseError carrying an
sqlite3.DatabaseError cause (corruption) makes the recorder move the broken
store away, create a fresh store (a new location, migrated to the latest
schema version), and report migration-in-progress false afterwards; a
DatabaseError without such a cause triggers no relocation and is instead a
fatal migration failure with a failure notification. -/
theorem corruption_relocates_store (latest : Nat) (s : Recorder.CoreState) :
    let c := Recorder.start_recorder latest (some .corruption) s
    let g := Recorder.start_recorder latest (some .genericDbError) s
    (c.movedAwayCount = s.movedAwayCount + 1 ∧
      c.storeLocation = s.storeLocation + 1 ∧
      c.storeVersion = latest ∧
      c.migrationInProgress = false ∧
      c.failed = false) ∧
    (g.movedAwayCount = s.movedAwayCount ∧
      g.storeLocation = s.storeLocation ∧
      g.failed = true ∧
      g.createCount = s.createCount + 1 ∧
      g.migrationInProgress = false) := by
  have hm := Migration.migrate_schema_from_zero latest
  constructor
  · simp [Recorder.start_recorder, hm]
  · simp [Recorder.start_recorder]

/-- Claim C8: from a state with no pending failure notification, a failed
migration invokes the notification collaborator exactly once (one create
call, one active notification), migration-in-progress reports false once the
failure is handled, and the next successful start dismisses the
notification. -/
theorem migration_failure_notification (latest : Nat) (s : Recorder.CoreState)
    (h : Recorder.migrationNotificationId ∉ s.activeNotifications) :
    let f := Recorder.start_recorder latest (some .genericDbError) s
    let g := Recorder.start_recorder latest none f
    f.createCount = s.createCount + 1 ∧
    f.activeNotifications.count Recorder.migrationNotificationId = 1 ∧
    f.migrationInProgress = false ∧
    f.failed = true ∧
    Recorder.migrationNotificationId ∉ g.activeNotifications ∧
    g.dismissCount = f.dismissCount + 1 ∧
    g.failed = false ∧
    g.migrationInProgress = false := by
  simp [Recorder.start_recorder, h, List.count_append, List.count_eq_zero.mpr h,
    List.mem_filter]

/-- Witness for claim C8 from the initial core state with latest version 3. -/
theorem migration_failure_notification_witness :
    Recorder.migrationNotificationId ∉ Recorder.initialState.activeNotifications ∧
    (let f := Recorder.start_recorder 3 (some .genericDbError) Recorder.initialState
      let g := Recorder.start_recorder 3 none f
      f.createCount = Recorder.initialState.createCount + 1 ∧
      f.activeNotifications.count Recorder.migrationNotificationId = 1 ∧
      f.migrationInProgress = false ∧
      f.failed = true ∧
      Recorder.migrationNotificationId ∉ g.activeNotifications ∧
      g.dismissCount = f.dismissCount + 1 ∧
      g.failed = false ∧
      g.migrationInProgress = false) :=
  ⟨by decide, migration_failure_notification 3 Recorder.initialState (by decide)⟩

/-- Claim C9 counterexample: for the concrete transport-timeout error
"No response after 10 seconds" raised inside `update` on a fresh sensor,
the error is swallowed (nothing is raised), `_attr_available` becomes false
and the native value becomes none — yet the entity's `available` property,
which `AuroraDevice` defines to read the separate `_available` field that
`update` never writes, still returns true.  This refutes the claim's
"available becomes False". -/
theorem aurora_available_shadow_counterexample :
    (Aurora.update (.err "No response after 10 seconds") Aurora.initState).raised = none ∧
    (Aurora.update (.err "No response after 10 seconds")
        Aurora.initState).state.attr_available = false ∧
    (Aurora.update (.err "No response after 10 seconds")
        Aurora.initState).state.attr_native_value = none ∧
    Aurora.available
      (Aurora.update (.err "No response after 10 seconds") Aurora.initState).state = true := by
  decide

/-- Claim C9 (amended): if the device raises an AuroraError whose text
contains "No response after", the error is logged at debug level, the
sensor's `_attr_available` attribute becomes false and its native value
becomes none, and no exception propagates to the caller — while the
`available` property (defined by `AuroraDevice` over the untouched
`_available` field) is left unchanged, so the entity does not actually
report unavailable; any other AuroraError from the same path is re-raised
to the caller. -/
theorem aurora_timeout_handling (s : Aurora.SensorState) (msg : String) :
    (strContainsSubstr msg "No response after" = true →
      (Aurora.update (.err msg) s).raised = none ∧
      (Aurora.update (.err msg) s).state.attr_available = false ∧
      (Aurora.update (.err msg) s).state.attr_native_value = none ∧
      (Aurora.LogLevel.debug, "No response from inverter (could be dark)") ∈
        (Aurora.update (.err msg) s).logs ∧
      Aurora.available (Aurora.update (.err msg) s).state = Aurora.available s) ∧
    (strContainsSubstr msg "No response after" = false →
      (Aurora.update (.err msg) s).raised = some msg) := by
  constructor <;> intro h <;> simp [Aurora.update, Aurora.available, h]

/-- Witness for the amended claim C9: a timeout message is swallowed and a
non-timeout message is re-raised, both on a fresh sensor. -/
theorem aurora_timeout_handling_witness :
    (strContainsSubstr "No response after 10 seconds" "No response after" = true ∧
      ((Aurora.update (.err "No response after 10 seconds") Aurora.initState).raised = none ∧
        (Aurora.update (.err "No response after 10 seconds")
            Aurora.initState).state.attr_available = false ∧
        (Aurora.update (.err "No response after 10 seconds")
            Aurora.initState).state.attr_native_value = none ∧
        (Aurora.LogLevel.debug, "No response from inverter (could be dark)") ∈
          (Aurora.update (.err "No response after 10 seconds") Aurora.initState).logs ∧
        Aurora.available
            (Aurora.update (.err "No response after 10 seconds") Aurora.initState).state =
          Aurora.available Aurora.initState)) ∧
    (strContainsSubstr "checksum failure" "No response after" = false ∧
      (Aurora.update (.err "checksum failure") Aurora.initState).raised =
        some "checksum failure") :=
  ⟨⟨by decide,
      (aurora_timeout_handling Aurora.initState "No response after 10 seconds").1 (by decide)⟩,
    ⟨by decide,
      (aurora_timeout_handling Aurora.initState "checksum failure").2 (by decide)⟩⟩

/-- Claim C10: a state-topic payload whose rendered value matches neither
the configured locked-state payload nor the configured unlocked-state
payload leaves `is_locked` unchanged, while the entity state is still
rewritten (one more `async_write_ha_state` call). -/
theorem lock_unmatched_payload_keeps_state (cfg : MqttLock.Config)
    (s : MqttLock.EntityState) (payload : String)
    (h1 : MqttLock.renderedPayload cfg payload ≠ cfg.state_locked)
    (h2 : MqttLock.renderedPayload cfg payload ≠ cfg.state_unlocked) :
    MqttLock.is_locked (MqttLock.message_received cfg s payload) = MqttLock.is_locked s ∧
    (MqttLock.message_received cfg s payload).haStateWrites = s.haStateWrites + 1 := by
  simp [MqttLock.message_received, MqttLock.is_locked, h1, h2]

/-- Witness for claim C10: payload "JAMMED" against the default
locked/unlocked payloads with no value template. -/
theorem lock_unmatched_payload_keeps_state_witness :
    MqttLock.renderedPayload ⟨"LOCKED", "UNLOCKED", none⟩ "JAMMED" ≠ "LOCKED" ∧
    MqttLock.renderedPayload ⟨"LOCKED", "UNLOCKED", none⟩ "JAMMED" ≠ "UNLOCKED" ∧
    (MqttLock.is_locked
        (MqttLock.message_received ⟨"LOCKED", "UNLOCKED", none⟩ ⟨false, 0⟩ "JAMMED") =
      MqttLock.is_locked ⟨false, 0⟩ ∧
      (MqttLock.message_received ⟨"LOCKED", "UNLOCKED", none⟩
          ⟨false, 0⟩ "JAMMED").haStateWrites = 0 + 1) :=
  ⟨by decide, by decide,
    lock_unmatched_payload_keeps_state ⟨"LOCKED", "UNLOCKED", none⟩ ⟨false, 0⟩ "JAMMED"
      (by decide) (by decide)⟩

end Spec2Proof
